import Mathlib

/-!
# Verification of the clay_bar status-bar layout pipeline

Shallow embedding of `src/clay_bar.c`: the declarative layout tree the
program builds each frame, the layout resolution and draw-command emission
(the Clay engine itself is not part of the sources, so those two passes are
modelled from the specification), the hit tester `point_in_element`, the
click dispatch of `main`, the text measurement heuristic `measure_text_fn`,
and the status-buffer update `update_root_status`.

Pixel quantities are modelled as rationals (the C code uses `float`; every
value relevant to the theorems below is produced by exact arithmetic on
small constants).  Machine integers are modelled as `Int`/`Nat`.
-/

namespace ClayBar

/-- An absolute bounding box in bar-local pixel coordinates
(`Clay_BoundingBox`). -/
structure Box where
  x : ℚ
  y : ℚ
  width : ℚ
  height : ℚ
deriving DecidableEq, Repr

/-- An RGBA color (`Clay_Color`, channels 0–255). -/
structure Color where
  r : ℚ
  g : ℚ
  b : ℚ
  a : ℚ
deriving DecidableEq, Repr

/-- C conversion of a floating-point value to `int`: truncation toward
zero (used by the `(int)` casts in `point_in_element`). -/
def cTrunc (q : ℚ) : ℤ :=
  if 0 ≤ q then q.floor else q.ceil

/-- Embedding of `point_in_element` (src/clay_bar.c:369-377).  The map
`boxes` stands for `Clay_GetElementData`: the most recent resolved box for
each identifier, `none` when `found` is false.  The comparisons mirror the
source: `px >= (int)x && px < (int)(x + w) && py >= (int)y && py < (int)(y + h)`,
and a missing element yields `0`. -/
def point_in_element (boxes : String → Option Box) (id : String) (px py : ℤ) : Bool :=
  match boxes id with
  | none => false
  | some b =>
      decide (cTrunc b.x ≤ px) && decide (px < cTrunc (b.x + b.width)) &&
      decide (cTrunc b.y ≤ py) && decide (py < cTrunc (b.y + b.height))

/-- Embedding of the `ButtonPress` branch of `main` (src/clay_bar.c:446-476).
Input: the resolved-box map of the last frame, the current `dropdown_open`
flag and the click point.  Output: the new `dropdown_open` flag and the
list of `argv` vectors handed to `spawn_cmd` (in order). -/
def handle_button_press (boxes : String → Option Box) (dropdown_open : Bool)
    (mx my : ℤ) : Bool × List (List String) :=
  if point_in_element boxes "menu_toggle" mx my then
    (!dropdown_open, [])
  else if dropdown_open then
    if point_in_element boxes "item1" mx my then
      (false, [["xterm"]])
    else if point_in_element boxes "item2" mx my then
      (false, [["xdg-open", "."]])
    else
      (false, [])
  else
    (dropdown_open, [])

/-- `Clay_TextElementConfig` fields used by the program: font size
(`uint16_t`), letter spacing (`int16_t`) and text color. -/
structure TextConfig where
  fontSize : ℕ
  letterSpacing : ℤ
  textColor : Color
deriving DecidableEq, Repr

/-- Embedding of `measure_text_fn` (src/clay_bar.c:86-92):
`width = length * (fontSize * 0.55) + letterSpacing`, `height = fontSize`
(the decimal constant `0.55` is the exact rational `11/20` here). -/
def measure_text_fn (s : String) (cfg : TextConfig) : ℚ × ℚ :=
  ((s.length : ℚ) * ((cfg.fontSize : ℚ) * (11 / 20)) + (cfg.letterSpacing : ℚ),
   (cfg.fontSize : ℚ))

/-- Embedding of `update_root_status` (src/clay_bar.c:129-140) acting on the
512-byte buffer `statusbuf`, modelled as a function from byte index to byte
value.  `fetched = some v` models a successful `XGetWMName` returning the
`v.length = nitems` bytes `v`; `none` models failure (or a null value).  On
success the length is clamped to 511, `len` bytes are copied and a NUL is
written at index `len`; on failure only index 0 is set to NUL. -/
def update_root_status (old : ℕ → ℕ) (fetched : Option (List ℕ)) (i : ℕ) : ℕ :=
  match fetched with
  | some v =>
      if i < min v.length 511 then v.getD i 0
      else if i = min v.length 511 then 0
      else old i
  | none =>
      if i = 0 then 0 else old i

/-- Read a NUL-terminated C string out of a byte buffer starting at index
`i`, inspecting at most `fuel` bytes. -/
def readCString (buf : ℕ → ℕ) : ℕ → ℕ → List ℕ
  | _, 0 => []
  | i, fuel + 1 => if buf i = 0 then [] else buf i :: readCString buf (i + 1) fuel

/-- The string content of the 512-byte `statusbuf`. -/
def bufString (buf : ℕ → ℕ) : List ℕ :=
  readCString buf 0 512

/-! ### The declarative layout tree

The tree the program declares each frame through the `CLAY` macros
(src/clay_bar.c:163-300).  Sizing/layout vocabulary follows the spec's data
model: `Fixed(px)`, `PercentOfParent(f)`, `Grow`; row/column direction;
uniform padding; inter-child gap; start/center/end child alignment;
optional background, border and floating attachment. -/

/-- A per-axis sizing policy. -/
inductive Sizing where
  | fixed (px : ℚ)
  | percent (f : ℚ)
  | grow
deriving DecidableEq, Repr

/-- Layout direction of a container. -/
inductive LayoutDirection where
  | leftToRight
  | topToBottom
deriving DecidableEq, Repr

/-- Child alignment on one axis (start / center / end). -/
inductive Align where
  | start
  | center
  | finish
deriving DecidableEq, Repr

/-- Border styling: color and (uniform) per-side width. -/
structure BorderConfig where
  color : Color
  width : ℚ
deriving DecidableEq, Repr

/-- Floating attachment: pixel offset from the root's top-left anchor and
z-index (the program's only floating element attaches to the root with
left-top anchor points on both sides). -/
structure FloatingConfig where
  offsetX : ℚ
  offsetY : ℚ
  zIndex : ℤ
deriving DecidableEq, Repr

/-- Configuration of a container element.  Every container the builder
declares sets its sizing explicitly, so the defaults below are never
load-bearing. -/
structure ContainerConfig where
  id : String
  widthSizing : Sizing
  heightSizing : Sizing
  direction : LayoutDirection
  padding : ℚ
  childGap : ℚ
  alignX : Align
  alignY : Align
  background : Option Color
  border : Option BorderConfig
  floating : Option FloatingConfig
deriving DecidableEq, Repr

/-- An element of the declarative layout tree: a container with ordered
children, or a text leaf. -/
inductive Element where
  | container (cfg : ContainerConfig) (children : List Element)
  | text (content : String) (cfg : TextConfig)

/-- Clay's defaults for fields a `CLAY({...})` call leaves unset:
left-to-right direction, no padding, no gap, start alignment, no
background, border or floating config. -/
def baseConfig : ContainerConfig where
  id := ""
  widthSizing := .fixed 0
  heightSizing := .fixed 0
  direction := .leftToRight
  padding := 0
  childGap := 0
  alignX := .start
  alignY := .start
  background := none
  border := none
  floating := none

/-- `BAR_HEIGHT` (src/clay_bar.c:66). -/
def BAR_HEIGHT : ℚ := 26

/-- The left cluster (src/clay_bar.c:177-227): fixed 250×26 row, padding 6,
gap 6, holding the 60×14 bordered `menu_toggle` with its "Menu" label and
the 170×14 `time_text` with the clock text. -/
def leftCluster (timebuf : String) : Element :=
  .container { baseConfig with
      id := "left",
      direction := .leftToRight,
      widthSizing := .fixed 250,
      heightSizing := .fixed BAR_HEIGHT,
      childGap := 6,
      padding := 6,
      background := some ⟨25, 25, 25, 255⟩ }
    [ .container { baseConfig with
          id := "menu_toggle",
          widthSizing := .fixed 60,
          heightSizing := .fixed (BAR_HEIGHT - 12),
          background := some ⟨40, 40, 40, 255⟩,
          border := some ⟨⟨120, 120, 120, 255⟩, 1⟩ }
        [ .text "Menu" ⟨12, 0, ⟨230, 230, 230, 255⟩⟩ ],
      .container { baseConfig with
          id := "time_text",
          widthSizing := .fixed 170,
          heightSizing := .fixed (BAR_HEIGHT - 12) }
        [ .text timebuf ⟨12, 0, ⟨220, 220, 220, 255⟩⟩ ] ]

/-- The center status area (src/clay_bar.c:230-244): percent-1.0 width,
fixed bar height, content centered on both axes, holding the status text. -/
def centerArea (statusbuf : String) : Element :=
  .container { baseConfig with
      id := "center",
      widthSizing := .percent 1,
      heightSizing := .fixed BAR_HEIGHT,
      alignX := .center,
      alignY := .center }
    [ .text statusbuf ⟨12, 0, ⟨200, 200, 200, 255⟩⟩ ]

/-- The floating dropdown (src/clay_bar.c:248-298): attached to the root's
left-top anchor with offset `(6, BAR_HEIGHT)`, z-index 100, fixed 180×120
column with padding 6 and gap 6, holding two grow×28 items with static
labels. -/
def dropdownMenu : Element :=
  .container { baseConfig with
      id := "dropdown",
      floating := some ⟨6, BAR_HEIGHT, 100⟩,
      widthSizing := .fixed 180,
      heightSizing := .fixed 120,
      padding := 6,
      childGap := 6,
      direction := .topToBottom,
      background := some ⟨28, 28, 28, 255⟩,
      border := some ⟨⟨90, 90, 90, 255⟩, 1⟩ }
    [ .container { baseConfig with
          id := "item1", widthSizing := .grow, heightSizing := .fixed 28 }
        [ .text "Open xterm" ⟨12, 0, ⟨220, 220, 220, 255⟩⟩ ],
      .container { baseConfig with
          id := "item2", widthSizing := .grow, heightSizing := .fixed 28 }
        [ .text "Show files (xdg-open .)" ⟨12, 0, ⟨220, 220, 220, 255⟩⟩ ] ]

/-- The per-frame layout tree builder (src/clay_bar.c:163-300): root
container of fixed `screen_w × BAR_HEIGHT` with the left cluster, the
center area, and — exactly when `dropdown_open` — the floating dropdown. -/
def build (timebuf statusbuf : String) (dropdown_open : Bool) (screen_w : ℤ) : Element :=
  .container { baseConfig with
      id := "root",
      widthSizing := .fixed (screen_w : ℚ),
      heightSizing := .fixed BAR_HEIGHT,
      background := some ⟨18, 18, 18, 255⟩ }
    ([leftCluster timebuf, centerArea statusbuf] ++
      (if dropdown_open then [dropdownMenu] else []))

/-! ### Layout resolution

Modelled from the spec: the Clay resolver (`clay.h`, not part of the
sources) per §4.2 — `Fixed(px)` gets `px`; `PercentOfParent(f)` gets
`f × (available − already_assigned_siblings)`; `Grow` gets the remaining
space, clamping to zero rather than going negative; child positions along
the layout direction accumulate from the parent origin plus leading
padding, advancing by each child's extent plus the gap; children are
placed per the start/center/end child alignment (§4.1/§8 require the
center container's content to be centered, so alignment applies on both
axes); floating elements do not consume flow space and are positioned at
the root box's top-left anchor plus their configured pixel offset; text
leaves take their measured size (`measure_text_fn`). -/

/-- The extent a sizing spec yields from `avail` space of which `already`
is taken by earlier siblings. -/
def sizingExtent : Sizing → ℚ → ℚ → ℚ
  | .fixed px, _, _ => px
  | .percent f, avail, already => max 0 (f * (avail - already))
  | .grow, avail, already => max 0 (avail - already)

/-- Whether an element is a floating container. -/
def isFloatingElem : Element → Bool
  | .container cfg _ => cfg.floating.isSome
  | .text _ _ => false

/-- The floating config of an element, if any. -/
def floatingOf : Element → Option FloatingConfig
  | .container cfg _ => cfg.floating
  | .text _ _ => none

/-- Width extent of a single element (shallow: a container from its sizing
spec, a text leaf from its measurement). -/
def elemExtentW (avail already : ℚ) : Element → ℚ
  | .text s cfg => (measure_text_fn s cfg).1
  | .container cfg _ => sizingExtent cfg.widthSizing avail already

/-- Height extent of a single element. -/
def elemExtentH (avail already : ℚ) : Element → ℚ
  | .text s cfg => (measure_text_fn s cfg).2
  | .container cfg _ => sizingExtent cfg.heightSizing avail already

/-- Leading offset of content of extent `extent` aligned in `avail` space. -/
def alignOffset : Align → ℚ → ℚ → ℚ
  | .start, _, _ => 0
  | .center, avail, extent => (avail - extent) / 2
  | .finish, avail, extent => avail - extent

/-- Number of non-floating (in-flow) children. -/
def flowCount (cs : List Element) : ℕ :=
  (cs.filter (fun c => !isFloatingElem c)).length

/-- Total main-axis extent of the in-flow children, assigned in traversal
order (each child's extent may depend on the space already taken). -/
def flowMainTotal (d : LayoutDirection) (avail : ℚ) (cs : List Element) : ℚ :=
  cs.foldl (fun acc c =>
    if isFloatingElem c then acc
    else match d with
      | .leftToRight => acc + elemExtentW avail acc c
      | .topToBottom => acc + elemExtentH avail acc c) 0

/-- A resolved element: the layout tree annotated with absolute boxes. -/
inductive RElement where
  | container (cfg : ContainerConfig) (box : Box) (children : List RElement)
  | text (content : String) (cfg : TextConfig) (box : Box)

mutual

/-- Modelled from the spec (§4.2): resolve element `e` into the box `b`
assigned by its parent, recursively laying out its children.  `root` is the
box of the root element, the anchor target of floating elements. -/
def resolveElem (root : Box) : Element → Box → RElement
  | .text s cfg, b => .text s cfg b
  | .container cfg cs, b =>
      let pad := cfg.padding
      let contentW := b.width - 2 * pad
      let contentH := b.height - 2 * pad
      let gaps := cfg.childGap * ((flowCount cs - 1 : ℕ) : ℚ)
      match cfg.direction with
      | .leftToRight =>
          let availMain := contentW - gaps
          .container cfg b (resolveChildren root .leftToRight cfg.childGap availMain
            (b.y + pad) contentH cfg.alignY cs
            (b.x + pad + alignOffset cfg.alignX availMain
              (flowMainTotal .leftToRight availMain cs)) 0)
      | .topToBottom =>
          let availMain := contentH - gaps
          .container cfg b (resolveChildren root .topToBottom cfg.childGap availMain
            (b.x + pad) contentW cfg.alignX cs
            (b.y + pad + alignOffset cfg.alignY availMain
              (flowMainTotal .topToBottom availMain cs)) 0)

/-- Modelled from the spec (§4.2): place a list of children.  `cursor` is
the next main-axis position, `already` the main-axis space taken so far;
floating children are positioned from the root anchor instead and consume
no flow space. -/
def resolveChildren (root : Box) (d : LayoutDirection)
    (gap availMain crossBase crossAvail : ℚ) (crossAlign : Align) :
    List Element → ℚ → ℚ → List RElement
  | [], _, _ => []
  | c :: rest, cursor, already =>
      match floatingOf c with
      | some fc =>
          resolveElem root c
              ⟨root.x + fc.offsetX, root.y + fc.offsetY,
               elemExtentW root.width 0 c, elemExtentH root.height 0 c⟩ ::
            resolveChildren root d gap availMain crossBase crossAvail crossAlign
              rest cursor already
      | none =>
          match d with
          | .leftToRight =>
              let cw := elemExtentW availMain already c
              let ch := elemExtentH crossAvail 0 c
              resolveElem root c
                  ⟨cursor, crossBase + alignOffset crossAlign crossAvail ch, cw, ch⟩ ::
                resolveChildren root .leftToRight gap availMain crossBase crossAvail
                  crossAlign rest (cursor + cw + gap) (already + cw)
          | .topToBottom =>
              let cw := elemExtentW crossAvail 0 c
              let ch := elemExtentH availMain already c
              resolveElem root c
                  ⟨crossBase + alignOffset crossAlign crossAvail cw, cursor, cw, ch⟩ ::
                resolveChildren root .topToBottom gap availMain crossBase crossAvail
                  crossAlign rest (cursor + ch + gap) (already + ch)

end

/-- Modelled from the spec (§4.2): resolve a whole tree against the
viewport; the root element's own box starts at the origin with its sized
extents. -/
def resolve (e : Element) (viewportW viewportH : ℚ) : RElement :=
  resolveElem ⟨0, 0, elemExtentW viewportW 0 e, elemExtentH viewportH 0 e⟩ e
    ⟨0, 0, elemExtentW viewportW 0 e, elemExtentH viewportH 0 e⟩

mutual

/-- Look up the resolved box of the container with the given identifier
(the model of `Clay_GetElementData`). -/
def findBox : RElement → String → Option Box
  | .text _ _ _, _ => none
  | .container cfg b cs, id =>
      if cfg.id = id then some b else findBoxList cs id

/-- Identifier lookup over a list of resolved elements. -/
def findBoxList : List RElement → String → Option Box
  | [], _ => none
  | r :: rs, id =>
      match findBox r id with
      | some b => some b
      | none => findBoxList rs id

end

mutual

/-- All `(identifier, box)` pairs of a resolved tree (the frame's resolved
map; text leaves carry no identifier). -/
def allBoxes : RElement → List (String × Box)
  | .text _ _ _ => []
  | .container cfg b cs => (cfg.id, b) :: allBoxesList cs

/-- `allBoxes` over a list of resolved elements. -/
def allBoxesList : List RElement → List (String × Box)
  | [] => []
  | r :: rs => allBoxes r ++ allBoxesList rs

end

mutual

/-- Whether the built tree contains a container with the given id. -/
def containsId : Element → String → Bool
  | .text _ _, _ => false
  | .container cfg cs, id => decide (cfg.id = id) || containsIdList cs id

/-- `containsId` over a list of elements. -/
def containsIdList : List Element → String → Bool
  | [], _ => false
  | c :: rest, id => containsId c id || containsIdList rest id

end

mutual

/-- Whether the built tree contains a text leaf with the given content. -/
def containsTextLeaf : Element → String → Bool
  | .text s _, t => decide (s = t)
  | .container _ cs, t => containsTextLeafList cs t

/-- `containsTextLeaf` over a list of elements. -/
def containsTextLeafList : List Element → String → Bool
  | [], _ => false
  | c :: rest, t => containsTextLeaf c t || containsTextLeafList rest t

end

mutual

/-- Number of floating elements in a built tree. -/
def floatCount : Element → ℕ
  | .text _ _ => 0
  | .container cfg cs =>
      (if cfg.floating.isSome then 1 else 0) + floatCountList cs

/-- `floatCount` over a list of elements. -/
def floatCountList : List Element → ℕ
  | [] => 0
  | c :: rest => floatCount c + floatCountList rest

end

mutual

/-- Look up the declared config of the container with the given id in a
built tree. -/
def findCfg : Element → String → Option ContainerConfig
  | .text _ _, _ => none
  | .container cfg cs, id =>
      if cfg.id = id then some cfg else findCfgList cs id

/-- `findCfg` over a list of elements. -/
def findCfgList : List Element → String → Option ContainerConfig
  | [], _ => none
  | c :: rest, id =>
      match findCfg c id with
      | some cfg => some cfg
      | none => findCfgList rest id

end

/-! ### Command emission

Modelled from the spec (§4.3): paint order is a pre-order traversal of the
non-floating tree — a container's background rectangle and border before
its children, a text leaf emitting its own Text command — followed by each
floating subtree, pre-order, in ascending z-index order. -/

/-- A primitive draw command. -/
inductive DrawCommand where
  | rect (box : Box) (color : Color)
  | border (box : Box) (width : ℚ) (color : Color)
  | text (box : Box) (content : String) (fontSize : ℕ) (color : Color)
deriving DecidableEq, Repr

/-- The commands a container emits for itself: background rectangle, then
border. -/
def ownCommands (cfg : ContainerConfig) (b : Box) : List DrawCommand :=
  (match cfg.background with
   | some col => [DrawCommand.rect b col]
   | none => []) ++
  (match cfg.border with
   | some bc => [DrawCommand.border b bc.width bc.color]
   | none => [])

/-- Insert a floating block into a z-sorted list, keeping ascending
z-index (stable for equal indices). -/
def insertByZ (p : ℤ × List DrawCommand) :
    List (ℤ × List DrawCommand) → List (ℤ × List DrawCommand)
  | [] => [p]
  | q :: qs => if p.1 < q.1 then p :: q :: qs else q :: insertByZ p qs

/-- Sort floating blocks by ascending z-index. -/
def sortByZ : List (ℤ × List DrawCommand) → List (ℤ × List DrawCommand)
  | [] => []
  | p :: ps => insertByZ p (sortByZ ps)

mutual

/-- Modelled from the spec (§4.3): emit a resolved element, returning the
in-flow commands and the floating blocks (z-index with their commands),
which the caller hoists after all in-flow content. -/
def emitElem : RElement → List DrawCommand × List (ℤ × List DrawCommand)
  | .text s cfg b => ([DrawCommand.text b s cfg.fontSize cfg.textColor], [])
  | .container cfg b cs =>
      let kids := emitList cs
      match cfg.floating with
      | none => (ownCommands cfg b ++ kids.1, kids.2)
      | some fc =>
          ([], [(fc.zIndex,
                 ownCommands cfg b ++ kids.1 ++
                   (sortByZ kids.2).flatMap (fun p => p.2))])

/-- `emitElem` over a list of resolved elements, concatenating flows and
floating blocks in order. -/
def emitList : List RElement → List DrawCommand × List (ℤ × List DrawCommand)
  | [] => ([], [])
  | r :: rs =>
      let a := emitElem r
      let b := emitList rs
      (a.1 ++ b.1, a.2 ++ b.2)

end

/-- The emitted command sequence, each command tagged with whether it was
emitted in the floating pass (i.e. belongs to a floating subtree). -/
def emitTagged (r : RElement) : List (Bool × DrawCommand) :=
  (emitElem r).1.map (fun c => (false, c)) ++
    (sortByZ (emitElem r).2).flatMap (fun p => p.2.map (fun c => (true, c)))

/-- The emitted command sequence of a resolved tree. -/
def emit (r : RElement) : List DrawCommand :=
  (emitTagged r).map Prod.snd

/-- A dummy command (used as the default of list indexing). -/
def dummyCmd : DrawCommand :=
  .rect ⟨0, 0, 0, 0⟩ ⟨0, 0, 0, 0⟩

/-! ### The per-frame pipeline -/

/-- One frame: build the tree from the current display state and resolve
it against the viewport (`render_clay_with_cairo`, src/clay_bar.c:155-305,
with the resolver modelled from the spec). -/
def frame (timebuf statusbuf : String) (dropdown_open : Bool) (screen_w : ℤ) : RElement :=
  resolve (build timebuf statusbuf dropdown_open screen_w) (screen_w : ℚ) BAR_HEIGHT

/-- The frame's emitted draw commands. -/
def frameCommands (timebuf statusbuf : String) (dropdown_open : Bool)
    (screen_w : ℤ) : List DrawCommand :=
  emit (frame timebuf statusbuf dropdown_open screen_w)

/-- The frame's tagged draw commands (floating-pass flag included). -/
def frameTagged (timebuf statusbuf : String) (dropdown_open : Bool)
    (screen_w : ℤ) : List (Bool × DrawCommand) :=
  emitTagged (frame timebuf statusbuf dropdown_open screen_w)

/-- The frame's resolved-box map, as consulted by `point_in_element`. -/
def frameBoxes (timebuf statusbuf : String) (dropdown_open : Bool)
    (screen_w : ℤ) : String → Option Box :=
  fun id => findBox (frame timebuf statusbuf dropdown_open screen_w) id

/-- Whether a draw command is a Text command with the given content. -/
def isTextCmdWith : DrawCommand → String → Bool
  | .text _ s _ _, t => decide (s = t)
  | _, _ => false

/-- Whether a draw command is a Text command. -/
def DrawCommand.isText : DrawCommand → Bool
  | .text _ _ _ _ => true
  | _ => false

/-- The text content of a draw command (empty for non-text commands). -/
def DrawCommand.contentOf : DrawCommand → String
  | .text _ s _ _ => s
  | _ => ""

mutual

/-- The Text commands of all text leaves of a resolved tree, in pre-order
(floating subtrees in declaration position). -/
def rTextCmds : RElement → List DrawCommand
  | .text s cfg b => [DrawCommand.text b s cfg.fontSize cfg.textColor]
  | .container _ _ cs => rTextCmdsList cs

/-- `rTextCmds` over a list of resolved elements. -/
def rTextCmdsList : List RElement → List DrawCommand
  | [] => []
  | r :: rs => rTextCmds r ++ rTextCmdsList rs

end

/-- Whether a command sequence contains a Text command with the given
content. -/
def hasTextCmd (cmds : List DrawCommand) (t : String) : Bool :=
  cmds.any (fun c => isTextCmdWith c t)

end ClayBar

namespace ClayBar

/-! ## Helper lemmas -/

theorem cTrunc_intCast (n : ℤ) : cTrunc (n : ℚ) = n := by
  have hden : ((n : ℚ)).den = 1 := Rat.den_intCast n
  have hnum : ((n : ℚ)).num = n := Rat.num_intCast n
  unfold cTrunc Rat.floor Rat.ceil
  split <;> simp [hden, hnum]

theorem readCString_length_le_of_zero (buf : ℕ → ℕ) :
    ∀ (k i fuel : ℕ), buf (i + k) = 0 → (readCString buf i fuel).length ≤ k := by
  intro k
  induction k with
  | zero =>
      intro i fuel h
      cases fuel with
      | zero => simp [readCString]
      | succ m => simp only [Nat.add_zero] at h; simp [readCString, h]
  | succ n ih =>
      intro i fuel h
      cases fuel with
      | zero => simp [readCString]
      | succ m =>
          by_cases h0 : buf i = 0
          · simp [readCString, h0]
          · have hz : buf ((i + 1) + n) = 0 := by
              have he : i + 1 + n = i + (n + 1) := by omega
              rw [he]; exact h
            have hle := ih (i + 1) m hz
            rw [readCString, if_neg h0, List.length_cons]
            omega

theorem bufString_length_le (buf : ℕ → ℕ) (k : ℕ)
    (h : buf k = 0) : (bufString buf).length ≤ k := by
  have := readCString_length_le_of_zero buf k 0 512 (by simpa using h)
  simpa [bufString] using this

theorem readCString_eq_take (v : List ℕ) (old : ℕ → ℕ)
    (hnz : ∀ b ∈ v, b ≠ 0) :
    ∀ (fuel j : ℕ), j ≤ min v.length 511 → min v.length 511 < j + fuel →
      readCString (update_root_status old (some v)) j fuel =
        (v.drop j).take (min v.length 511 - j) := by
  intro fuel
  induction fuel with
  | zero => intro j hj hlt; omega
  | succ m ih =>
      intro j hj hlt
      by_cases hje : j = min v.length 511
      · have hbuf : update_root_status old (some v) j = 0 := by
          rw [update_root_status, if_neg (by omega), if_pos hje]
        rw [readCString, if_pos hbuf, hje]
        simp
      · have hjlt : j < min v.length 511 := by omega
        have hjv : j < v.length := by omega
        have hbuf : update_root_status old (some v) j = v.getD j 0 := by
          rw [update_root_status, if_pos hjlt]
        have hget : v.getD j 0 = v[j] := List.getD_eq_getElem v 0 hjv
        have hne : v.getD j 0 ≠ 0 := by
          rw [hget]; exact hnz _ (List.getElem_mem hjv)
        have hrec := ih (j + 1) (by omega) (by omega)
        have hdrop : v.drop j = v[j] :: v.drop (j + 1) := List.drop_eq_getElem_cons hjv
        have htake : min v.length 511 - j = (min v.length 511 - (j + 1)) + 1 := by omega
        rw [readCString, if_neg (by rw [hbuf]; exact hne), hbuf, hget, hdrop, htake,
          List.take_succ_cons, hrec]

end ClayBar

namespace ClayBar

/-! ## Claims -/

/-- **C1**: for every click event at `(mx, my)`: a hit on `menu_toggle`
flips `dropdown_open` (launching nothing); otherwise, while the dropdown is
open, a hit on `item1` launches `xterm` and closes it, a hit on `item2`
(and not `item1`) launches `xdg-open .` and closes it, and any other click
closes it without launching anything; a click outside the toggle while
closed leaves the state unchanged and launches nothing. -/
theorem claim_C1_click_dispatch (boxes : String → Option Box) (dd : Bool) (mx my : ℤ) :
    (point_in_element boxes "menu_toggle" mx my = true →
      handle_button_press boxes dd mx my = (!dd, [])) ∧
    (point_in_element boxes "menu_toggle" mx my = false → dd = true →
      point_in_element boxes "item1" mx my = true →
      handle_button_press boxes dd mx my = (false, [["xterm"]])) ∧
    (point_in_element boxes "menu_toggle" mx my = false → dd = true →
      point_in_element boxes "item1" mx my = false →
      point_in_element boxes "item2" mx my = true →
      handle_button_press boxes dd mx my = (false, [["xdg-open", "."]])) ∧
    (point_in_element boxes "menu_toggle" mx my = false → dd = true →
      point_in_element boxes "item1" mx my = false →
      point_in_element boxes "item2" mx my = false →
      handle_button_press boxes dd mx my = (false, [])) ∧
    (point_in_element boxes "menu_toggle" mx my = false → dd = false →
      handle_button_press boxes dd mx my = (dd, [])) := by
  refine ⟨?_, ?_, ?_, ?_, ?_⟩ <;> intros <;> simp_all [handle_button_press]

/-- Witness for C1 at a concrete box map and click points. -/
theorem claim_C1_click_dispatch_witness :
    handle_button_press
        (fun id => if id = "menu_toggle" then some ⟨10, 0, 60, 14⟩ else none)
        false 20 5
      = (true, []) ∧
    handle_button_press
        (fun id => if id = "menu_toggle" then some ⟨10, 0, 60, 14⟩ else none)
        true 200 5
      = (false, []) := by
  constructor
  · exact (claim_C1_click_dispatch
      (fun id => if id = "menu_toggle" then some ⟨10, 0, 60, 14⟩ else none)
      false 20 5).1 (by norm_num [point_in_element, cTrunc, Rat.floor_def'])
  · exact (claim_C1_click_dispatch
      (fun id => if id = "menu_toggle" then some ⟨10, 0, 60, 14⟩ else none)
      true 200 5).2.2.2.1
      (by norm_num [point_in_element, cTrunc, Rat.floor_def']) rfl
      (by simp only [point_in_element]; rw [if_neg (by decide)])
      (by simp only [point_in_element]; rw [if_neg (by decide)])

/-- **C8**: for every text config, the measured width is monotonically
non-decreasing in the length of the input string, and the measurement of
the empty string is defined (it equals `(letterSpacing, fontSize)`). -/
theorem claim_C8_measure_monotone (cfg : TextConfig) (s t : String)
    (h : s.length ≤ t.length) :
    (measure_text_fn s cfg).1 ≤ (measure_text_fn t cfg).1 ∧
    measure_text_fn "" cfg = ((cfg.letterSpacing : ℚ), (cfg.fontSize : ℚ)) := by
  constructor
  · unfold measure_text_fn
    have hc : (0 : ℚ) ≤ (cfg.fontSize : ℚ) * (11 / 20) := by positivity
    have hlen : (s.length : ℚ) ≤ (t.length : ℚ) := by exact_mod_cast h
    exact add_le_add_right (mul_le_mul_of_nonneg_right hlen hc) _
  · simp [measure_text_fn]

/-- Witness for C8 at a concrete config and string pair. -/
theorem claim_C8_measure_monotone_witness :
    (measure_text_fn "ab" ⟨12, 0, ⟨230, 230, 230, 255⟩⟩).1 ≤
      (measure_text_fn "abcd" ⟨12, 0, ⟨230, 230, 230, 255⟩⟩).1 ∧
    measure_text_fn "" ⟨12, 0, ⟨230, 230, 230, 255⟩⟩ = ((0 : ℚ), (12 : ℚ)) := by
  have h := claim_C8_measure_monotone ⟨12, 0, ⟨230, 230, 230, 255⟩⟩ "ab" "abcd" (by decide)
  exact ⟨h.1, by simpa using h.2⟩

/-- **C10**: every `update_root_status` call leaves the bytes at indices
≥ 512 untouched (the 512-byte buffer never overflows), leaves a
NUL-terminated string of at most 511 bytes in the buffer, truncates a
root-window name longer than 511 bytes to its first 511 bytes, and stores
the empty string when fetching the name fails. -/
theorem claim_C10_status_buffer (old : ℕ → ℕ) (v : List ℕ)
    (f : Option (List ℕ)) (hnz : ∀ b ∈ v, b ≠ 0) :
    (∀ i, 512 ≤ i → update_root_status old f i = old i) ∧
    (bufString (update_root_status old f)).length ≤ 511 ∧
    bufString (update_root_status old (some v)) = v.take 511 ∧
    bufString (update_root_status old none) = [] := by
  refine ⟨?_, ?_, ?_, ?_⟩
  · intro i hi
    cases f with
    | none => rw [update_root_status, if_neg (by omega)]
    | some w =>
        rw [update_root_status, if_neg (by omega), if_neg (by omega)]
  · cases f with
    | none =>
        have h0 : update_root_status old none 0 = 0 := by
          rw [update_root_status, if_pos rfl]
        have := bufString_length_le (update_root_status old none) 0 h0
        omega
    | some w =>
        have h0 : update_root_status old (some w) (min w.length 511) = 0 := by
          rw [update_root_status, if_neg (by omega), if_pos rfl]
        have := bufString_length_le (update_root_status old (some w))
          (min w.length 511) h0
        omega
  · have h := readCString_eq_take v old hnz 512 0 (by omega) (by omega)
    simp only [List.drop_zero, Nat.sub_zero] at h
    rw [bufString, h]
    rcases le_or_lt v.length 511 with hle | hlt
    · rw [min_eq_left hle, List.take_length, List.take_of_length_le hle]
    · rw [min_eq_right (by omega)]
  · have h0 : update_root_status old none 0 = 0 := by
      rw [update_root_status, if_pos rfl]
    have := bufString_length_le (update_root_status old none) 0 h0
    exact List.eq_nil_of_length_eq_zero (by omega)

/-- Witness for C10 on a concrete 600-byte name (truncated to 511 bytes)
and concrete indices. -/
theorem claim_C10_status_buffer_witness :
    (∀ i, 512 ≤ i → update_root_status (fun _ => 7) (some (List.replicate 600 65)) i = 7) ∧
    (bufString (update_root_status (fun _ => 7) (some (List.replicate 600 65)))).length ≤ 511 ∧
    bufString (update_root_status (fun _ => 7) (some (List.replicate 600 65))) =
      (List.replicate 600 65).take 511 ∧
    bufString (update_root_status (fun _ => 7) none) = [] := by
  have h := claim_C10_status_buffer (fun _ => 7) (List.replicate 600 65)
    (some (List.replicate 600 65))
    (by intro b hb; rw [List.eq_of_mem_replicate hb]; omega)
  exact h

theorem allBoxes_frame_false (t s : String) (w : ℤ) :
    allBoxes (frame t s false w) =
      [("root", ⟨0, 0, (w : ℚ), 26⟩), ("left", ⟨0, 0, 250, 26⟩),
       ("menu_toggle", ⟨6, 6, 60, 14⟩), ("time_text", ⟨72, 6, 170, 14⟩),
       ("center", ⟨250, 0, max 0 ((w : ℚ) - 250), 26⟩)] := by
  simp only [frame, build, leftCluster, centerArea, resolve, resolveElem, resolveChildren,
    allBoxes, allBoxesList, elemExtentW, elemExtentH, sizingExtent, measure_text_fn,
    flowCount, flowMainTotal, alignOffset, floatingOf, isFloatingElem, BAR_HEIGHT,
    baseConfig, List.filter, List.foldl, List.append]
  norm_num

theorem allBoxes_frame_true (t s : String) (w : ℤ) :
    allBoxes (frame t s true w) =
      [("root", ⟨0, 0, (w : ℚ), 26⟩), ("left", ⟨0, 0, 250, 26⟩),
       ("menu_toggle", ⟨6, 6, 60, 14⟩), ("time_text", ⟨72, 6, 170, 14⟩),
       ("center", ⟨250, 0, max 0 ((w : ℚ) - 250), 26⟩),
       ("dropdown", ⟨6, 26, 180, 120⟩),
       ("item1", ⟨12, 32, 168, 28⟩), ("item2", ⟨12, 66, 168, 28⟩)] := by
  simp only [frame, build, leftCluster, centerArea, dropdownMenu, resolve, resolveElem,
    resolveChildren, allBoxes, allBoxesList, elemExtentW, elemExtentH, sizingExtent,
    measure_text_fn, flowCount, flowMainTotal, alignOffset, floatingOf, isFloatingElem,
    BAR_HEIGHT, baseConfig, List.filter, List.foldl, List.append]
  norm_num

/-- **C2**: every identifier's last-resolved box has integer coordinates
(first conjunct, over all frames of this program), and for such boxes the
hit test returns true iff the point lies in the half-open rectangle
`[x, x+w) × [y, y+h)`; in particular for the box `(10, 0, 60, 14)` the
points `(10,0)` and `(69,13)` hit while `(70,0)` and `(9,0)` do not. -/
theorem claim_C2_hit_test_rule :
    (∀ (timebuf statusbuf : String) (dd : Bool) (w : ℤ),
      ∀ p ∈ allBoxes (frame timebuf statusbuf dd w),
        ∃ xi yi wi hi : ℤ,
          p.2 = ⟨(xi : ℚ), (yi : ℚ), (wi : ℚ), (hi : ℚ)⟩) ∧
    (∀ (boxes : String → Option Box) (id : String) (px py xi yi wi hi : ℤ),
      boxes id = some ⟨(xi : ℚ), (yi : ℚ), (wi : ℚ), (hi : ℚ)⟩ →
      (point_in_element boxes id px py = true ↔
        (xi ≤ px ∧ px < xi + wi ∧ yi ≤ py ∧ py < yi + hi))) ∧
    (∀ boxes : String → Option Box, boxes "e" = some ⟨10, 0, 60, 14⟩ →
      point_in_element boxes "e" 10 0 = true ∧
      point_in_element boxes "e" 69 13 = true ∧
      point_in_element boxes "e" 70 0 = false ∧
      point_in_element boxes "e" 9 0 = false) := by
  refine ⟨?_, ?_, ?_⟩
  · intro t s dd w p hp
    cases dd
    · rw [allBoxes_frame_false] at hp
      simp only [List.mem_cons, List.not_mem_nil, or_false] at hp
      rcases hp with rfl | rfl | rfl | rfl | rfl
      · exact ⟨0, 0, w, 26, by simp [Box.mk.injEq]⟩
      · exact ⟨0, 0, 250, 26, by simp [Box.mk.injEq]⟩
      · exact ⟨6, 6, 60, 14, by simp [Box.mk.injEq]⟩
      · exact ⟨72, 6, 170, 14, by simp [Box.mk.injEq]⟩
      · exact ⟨250, 0, max 0 (w - 250), 26, by simp [Box.mk.injEq]⟩
    · rw [allBoxes_frame_true] at hp
      simp only [List.mem_cons, List.not_mem_nil, or_false] at hp
      rcases hp with rfl | rfl | rfl | rfl | rfl | rfl | rfl | rfl
      · exact ⟨0, 0, w, 26, by simp [Box.mk.injEq]⟩
      · exact ⟨0, 0, 250, 26, by simp [Box.mk.injEq]⟩
      · exact ⟨6, 6, 60, 14, by simp [Box.mk.injEq]⟩
      · exact ⟨72, 6, 170, 14, by simp [Box.mk.injEq]⟩
      · exact ⟨250, 0, max 0 (w - 250), 26, by simp [Box.mk.injEq]⟩
      · exact ⟨6, 26, 180, 120, by simp [Box.mk.injEq]⟩
      · exact ⟨12, 32, 168, 28, by simp [Box.mk.injEq]⟩
      · exact ⟨12, 66, 168, 28, by simp [Box.mk.injEq]⟩
  · intro boxes id px py xi yi wi hi hbox
    have hxw : (xi : ℚ) + (wi : ℚ) = ((xi + wi : ℤ) : ℚ) := by push_cast; ring
    have hyh : (yi : ℚ) + (hi : ℚ) = ((yi + hi : ℤ) : ℚ) := by push_cast; ring
    simp only [point_in_element, hbox, hxw, hyh, cTrunc_intCast,
      Bool.and_eq_true, decide_eq_true_eq]
    omega
  · intro boxes hb
    refine ⟨?_, ?_, ?_, ?_⟩ <;>
      norm_num [point_in_element, hb, cTrunc, Rat.floor_def']

theorem claim_C2_hit_test_rule_witness :
    point_in_element (fun _ => some ⟨10, 0, 60, 14⟩) "e" 10 0 = true ∧
    point_in_element (fun _ => some ⟨10, 0, 60, 14⟩) "e" 69 13 = true ∧
    point_in_element (fun _ => some ⟨10, 0, 60, 14⟩) "e" 70 0 = false ∧
    point_in_element (fun _ => some ⟨10, 0, 60, 14⟩) "e" 9 0 = false :=
  claim_C2_hit_test_rule.2.2 (fun _ => some ⟨10, 0, 60, 14⟩) rfl

/-- **C5**: after a resize to viewport width 1280, the next resolve gives
the root container width 1280 and the center container width `1280 − 250`
(the percent-sized sibling receives the parent space left over after the
fixed 250px left cluster). -/
theorem claim_C5_resize (timebuf statusbuf : String) (dd : Bool) :
    findBox (frame timebuf statusbuf dd 1280) "root" = some ⟨0, 0, 1280, 26⟩ ∧
    findBox (frame timebuf statusbuf dd 1280) "center" = some ⟨250, 0, 1280 - 250, 26⟩ := by
  cases dd <;>
    refine ⟨?_, ?_⟩ <;>
      · simp only [frame, build, leftCluster, centerArea, dropdownMenu, resolve, resolveElem,
          resolveChildren, findBox, findBoxList, elemExtentW, elemExtentH, sizingExtent,
          measure_text_fn, flowCount, flowMainTotal, alignOffset, floatingOf, isFloatingElem,
          BAR_HEIGHT, baseConfig, List.filter, List.foldl, List.append, String.reduceEq, reduceIte]
        norm_num

/-- **C6 counterexample**: the claim as stated is false — at the concrete
open frame the resolved dropdown box is `(6, 26, 180, 120)` while the
root's box is at `x = 0`: the dropdown's top-left `x` is `root.x + 6`,
not `root.x`. -/
theorem claim_C6_counterexample :
    findBox (frame "" "" true 1920) "root" = some ⟨0, 0, 1920, 26⟩ ∧
    findBox (frame "" "" true 1920) "dropdown" = some ⟨6, 26, 180, 120⟩ ∧
    (6 : ℚ) ≠ 0 := by
  refine ⟨?_, ?_, by norm_num⟩ <;>
    · simp only [frame, build, leftCluster, centerArea, dropdownMenu, resolve, resolveElem,
        resolveChildren, findBox, findBoxList, elemExtentW, elemExtentH, sizingExtent,
        measure_text_fn, flowCount, flowMainTotal, alignOffset, floatingOf, isFloatingElem,
        BAR_HEIGHT, baseConfig, List.filter, List.foldl, List.append, String.reduceEq, reduceIte]
      norm_num

/-- **C6 (amended)**: when the dropdown is open, the floating dropdown is
declared fixed 180×120, column layout, padding 6, gap 6, z-index 100 and is
the only floating element (hence painted above everything); it resolves at
the root's top-left corner offset by 6 px horizontally and by the bar
height vertically; and it consumes no space in the root's normal flow (the
root, left and center boxes are unchanged by its presence). -/
theorem claim_C6_dropdown_amended (timebuf statusbuf : String) (w : ℤ) :
    (∃ cfg, findCfg (build timebuf statusbuf true w) "dropdown" = some cfg ∧
      cfg.widthSizing = .fixed 180 ∧ cfg.heightSizing = .fixed 120 ∧
      cfg.direction = .topToBottom ∧ cfg.padding = 6 ∧ cfg.childGap = 6 ∧
      cfg.floating = some ⟨6, BAR_HEIGHT, 100⟩) ∧
    floatCount (build timebuf statusbuf true w) = 1 ∧
    (∀ rb, findBox (frame timebuf statusbuf true w) "root" = some rb →
      findBox (frame timebuf statusbuf true w) "dropdown" =
        some ⟨rb.x + 6, rb.y + BAR_HEIGHT, 180, 120⟩) ∧
    findBox (frame timebuf statusbuf true w) "center" =
      findBox (frame timebuf statusbuf false w) "center" ∧
    findBox (frame timebuf statusbuf true w) "left" =
      findBox (frame timebuf statusbuf false w) "left" ∧
    findBox (frame timebuf statusbuf true w) "root" =
      findBox (frame timebuf statusbuf false w) "root" := by
  refine ⟨?_, ?_, ?_, ?_, ?_, ?_⟩
  · have hc : findCfg (build timebuf statusbuf true w) "dropdown" =
        some { baseConfig with
          id := "dropdown", floating := some ⟨6, BAR_HEIGHT, 100⟩,
          widthSizing := .fixed 180, heightSizing := .fixed 120,
          padding := 6, childGap := 6, direction := .topToBottom,
          background := some ⟨28, 28, 28, 255⟩,
          border := some ⟨⟨90, 90, 90, 255⟩, 1⟩ } := by
      simp only [build, leftCluster, centerArea, dropdownMenu, findCfg, findCfgList,
        baseConfig, List.append, String.reduceEq, reduceIte]
    exact ⟨_, hc, rfl, rfl, rfl, rfl, rfl, rfl⟩
  · simp [build, leftCluster, centerArea, dropdownMenu, floatCount, floatCountList,
      baseConfig]
  · intro rb hrb
    have hroot : findBox (frame timebuf statusbuf true w) "root" =
        some ⟨0, 0, (w : ℚ), 26⟩ := by
      simp only [frame, build, leftCluster, centerArea, dropdownMenu, resolve, resolveElem,
        resolveChildren, findBox, findBoxList, elemExtentW, elemExtentH, sizingExtent,
        measure_text_fn, flowCount, flowMainTotal, alignOffset, floatingOf, isFloatingElem,
        BAR_HEIGHT, baseConfig, List.filter, List.foldl, List.append, String.reduceEq, reduceIte]
    have hrbeq : rb = ⟨0, 0, (w : ℚ), 26⟩ := by
      rw [hroot] at hrb
      exact (Option.some_inj.mp hrb).symm
    subst hrbeq
    simp only [frame, build, leftCluster, centerArea, dropdownMenu, resolve, resolveElem,
      resolveChildren, findBox, findBoxList, elemExtentW, elemExtentH, sizingExtent,
      measure_text_fn, flowCount, flowMainTotal, alignOffset, floatingOf, isFloatingElem,
      BAR_HEIGHT, baseConfig, List.filter, List.foldl, List.append, String.reduceEq, reduceIte]
  · trans (some (⟨250, 0, max 0 ((w : ℚ) - 250), 26⟩ : Box))
    · simp only [frame, build, leftCluster, centerArea, dropdownMenu, resolve, resolveElem,
          resolveChildren, findBox, findBoxList, elemExtentW, elemExtentH, sizingExtent,
          measure_text_fn, flowCount, flowMainTotal, alignOffset, floatingOf, isFloatingElem,
          BAR_HEIGHT, baseConfig, List.filter, List.foldl, List.append, String.reduceEq, reduceIte]
      norm_num
    · symm
      simp only [frame, build, leftCluster, centerArea, dropdownMenu, resolve, resolveElem,
          resolveChildren, findBox, findBoxList, elemExtentW, elemExtentH, sizingExtent,
          measure_text_fn, flowCount, flowMainTotal, alignOffset, floatingOf, isFloatingElem,
          BAR_HEIGHT, baseConfig, List.filter, List.foldl, List.append, String.reduceEq, reduceIte]
      norm_num
  · trans (some (⟨0, 0, 250, 26⟩ : Box))
    · simp only [frame, build, leftCluster, centerArea, dropdownMenu, resolve, resolveElem,
          resolveChildren, findBox, findBoxList, elemExtentW, elemExtentH, sizingExtent,
          measure_text_fn, flowCount, flowMainTotal, alignOffset, floatingOf, isFloatingElem,
          BAR_HEIGHT, baseConfig, List.filter, List.foldl, List.append, String.reduceEq, reduceIte]
      norm_num
    · symm
      simp only [frame, build, leftCluster, centerArea, dropdownMenu, resolve, resolveElem,
          resolveChildren, findBox, findBoxList, elemExtentW, elemExtentH, sizingExtent,
          measure_text_fn, flowCount, flowMainTotal, alignOffset, floatingOf, isFloatingElem,
          BAR_HEIGHT, baseConfig, List.filter, List.foldl, List.append, String.reduceEq, reduceIte]
      norm_num
  · trans (some (⟨0, 0, (w : ℚ), 26⟩ : Box))
    · simp only [frame, build, leftCluster, centerArea, dropdownMenu, resolve, resolveElem,
          resolveChildren, findBox, findBoxList, elemExtentW, elemExtentH, sizingExtent,
          measure_text_fn, flowCount, flowMainTotal, alignOffset, floatingOf, isFloatingElem,
          BAR_HEIGHT, baseConfig, List.filter, List.foldl, List.append, String.reduceEq, reduceIte]
    · symm
      simp only [frame, build, leftCluster, centerArea, dropdownMenu, resolve, resolveElem,
          resolveChildren, findBox, findBoxList, elemExtentW, elemExtentH, sizingExtent,
          measure_text_fn, flowCount, flowMainTotal, alignOffset, floatingOf, isFloatingElem,
          BAR_HEIGHT, baseConfig, List.filter, List.foldl, List.append, String.reduceEq, reduceIte]

theorem claim_C6_dropdown_amended_witness :
    findBox (frame "" "" true 1920) "dropdown" =
      some ⟨(0 : ℚ) + 6, (0 : ℚ) + BAR_HEIGHT, 180, 120⟩ := by
  refine (claim_C6_dropdown_amended "" "" 1920).2.2.1 ⟨0, 0, 1920, 26⟩ ?_
  simp only [frame, build, leftCluster, centerArea, dropdownMenu, resolve, resolveElem,
    resolveChildren, findBox, findBoxList, elemExtentW, elemExtentH, sizingExtent,
    measure_text_fn, flowCount, flowMainTotal, alignOffset, floatingOf, isFloatingElem,
    BAR_HEIGHT, baseConfig, List.filter, List.foldl, List.append, String.reduceEq, reduceIte]
  norm_num

/-- **C7**: a hit test against an identifier absent from the resolved map
returns false (not an error), indistinguishable from an identifier that is
present but whose box misses the point; in particular `item1`/`item2` are
absent from every closed-dropdown frame. -/
theorem claim_C7_absent_id (boxes : String → Option Box) (id1 id2 : String)
    (b : Box) (px py : ℤ) (habsent : boxes id1 = none) :
    point_in_element boxes id1 px py = false ∧
    (boxes id2 = some b → point_in_element boxes id2 px py = false →
      point_in_element boxes id1 px py = point_in_element boxes id2 px py) ∧
    (∀ (timebuf statusbuf : String) (w : ℤ),
      frameBoxes timebuf statusbuf false w "item1" = none ∧
      frameBoxes timebuf statusbuf false w "item2" = none) := by
  refine ⟨by simp [point_in_element, habsent], ?_, ?_⟩
  · intro hsome houtside
    rw [houtside]
    simp [point_in_element, habsent]
  · intro timebuf statusbuf w
    constructor <;>
      · simp only [frameBoxes, frame, build, leftCluster, centerArea, resolve, resolveElem,
          resolveChildren, findBox, findBoxList, elemExtentW, elemExtentH, sizingExtent,
          measure_text_fn, flowCount, flowMainTotal, alignOffset, floatingOf, isFloatingElem,
          BAR_HEIGHT, baseConfig, List.filter, List.foldl, List.append, String.reduceEq, reduceIte]

theorem claim_C7_absent_id_witness :
    point_in_element (fun _ => none) "item1" 3 4 = false ∧
    frameBoxes "" "" false 1920 "item1" = none :=
  ⟨(claim_C7_absent_id (fun _ => none) "item1" "x" ⟨0, 0, 0, 0⟩ 3 4 rfl).1,
   ((claim_C7_absent_id (fun _ => none) "item1" "x" ⟨0, 0, 0, 0⟩ 3 4 rfl).2.2 "" "" 1920).1⟩

theorem insertByZ_perm (p : ℤ × List DrawCommand) :
    ∀ l : List (ℤ × List DrawCommand), (insertByZ p l).Perm (p :: l)
  | [] => by simp [insertByZ]
  | q :: qs => by
      rw [insertByZ]
      split
      · exact List.Perm.refl _
      · exact ((insertByZ_perm p qs).cons q).trans (List.Perm.swap p q qs)

theorem sortByZ_perm : ∀ l : List (ℤ × List DrawCommand), (sortByZ l).Perm l
  | [] => List.Perm.refl _
  | p :: ps => (insertByZ_perm p (sortByZ ps)).trans ((sortByZ_perm ps).cons p)

theorem emit_eq_flow_append (r : RElement) :
    emit r = (emitElem r).1 ++ (sortByZ (emitElem r).2).flatMap (fun p => p.2) := by
  simp [emit, emitTagged, List.map_map, Function.comp, List.map_flatMap]

theorem ownCommands_not_text (cfg : ContainerConfig) (b : Box) (c : DrawCommand)
    (ht : c.isText = true) : c ∉ ownCommands cfg b := by
  intro hmem
  rw [ownCommands] at hmem
  rcases List.mem_append.mp hmem with h | h
  · rcases hbg : cfg.background with _ | col <;> rw [hbg] at h <;> simp at h
    subst h; simp [DrawCommand.isText] at ht
  · rcases hbd : cfg.border with _ | bc <;> rw [hbd] at h <;> simp at h
    subst h; simp [DrawCommand.isText] at ht

mutual

theorem emitElem_text_mem (r : RElement) (c : DrawCommand) (ht : c.isText = true) :
    (c ∈ (emitElem r).1 ∨ ∃ p ∈ (emitElem r).2, c ∈ p.2) ↔ c ∈ rTextCmds r := by
  match r with
  | .text s cfg b => simp [emitElem, rTextCmds]
  | .container cfg b cs =>
      have ih := emitList_text_mem cs c ht
      have hno := ownCommands_not_text cfg b c ht
      rcases hf : cfg.floating with _ | fc
      · simp only [emitElem, hf, rTextCmds, List.mem_append]
        rw [← ih]
        constructor
        · rintro ((h | h) | h)
          · exact absurd h hno
          · exact Or.inl h
          · exact Or.inr h
        · rintro (h | h)
          · exact Or.inl (Or.inr h)
          · exact Or.inr h
      · have hperm : ∀ p, p ∈ sortByZ (emitList cs).2 ↔ p ∈ (emitList cs).2 :=
          fun p => (sortByZ_perm _).mem_iff
        simp only [emitElem, hf, rTextCmds, List.not_mem_nil, false_or,
          List.mem_singleton, exists_eq_left, List.mem_append, List.mem_flatMap,
          hperm, or_and_right, exists_or]
        rw [← ih]
        constructor
        · rintro ((h | h) | h)
          · exact absurd h hno
          · exact Or.inl h
          · exact Or.inr h
        · rintro (h | h)
          · exact Or.inl (Or.inr h)
          · exact Or.inr h

theorem emitList_text_mem (rs : List RElement) (c : DrawCommand) (ht : c.isText = true) :
    (c ∈ (emitList rs).1 ∨ ∃ p ∈ (emitList rs).2, c ∈ p.2) ↔ c ∈ rTextCmdsList rs := by
  match rs with
  | [] => simp [emitList, rTextCmdsList]
  | r :: rest =>
      have ih1 := emitElem_text_mem r c ht
      have ih2 := emitList_text_mem rest c ht
      simp only [emitList, rTextCmdsList, List.mem_append, or_and_right, exists_or]
      constructor
      · rintro ((h | h) | (⟨p, hp, hcp⟩ | ⟨p, hp, hcp⟩))
        · exact Or.inl (ih1.mp (Or.inl h))
        · exact Or.inr (ih2.mp (Or.inl h))
        · exact Or.inl (ih1.mp (Or.inr ⟨p, hp, hcp⟩))
        · exact Or.inr (ih2.mp (Or.inr ⟨p, hp, hcp⟩))
      · rintro (h | h)
        · rcases ih1.mpr h with h' | ⟨p, hp, hcp⟩
          · exact Or.inl (Or.inl h')
          · exact Or.inr (Or.inl ⟨p, hp, hcp⟩)
        · rcases ih2.mpr h with h' | ⟨p, hp, hcp⟩
          · exact Or.inl (Or.inr h')
          · exact Or.inr (Or.inr ⟨p, hp, hcp⟩)

end

theorem mem_emit_iff_text (r : RElement) (c : DrawCommand) (ht : c.isText = true) :
    c ∈ emit r ↔ c ∈ rTextCmds r := by
  rw [emit_eq_flow_append, List.mem_append]
  rw [← emitElem_text_mem r c ht]
  have hperm : ∀ p, p ∈ sortByZ (emitElem r).2 ↔ p ∈ (emitElem r).2 :=
    fun p => (sortByZ_perm _).mem_iff
  simp only [List.mem_flatMap, hperm]

mutual

theorem rTextCmds_isText (r : RElement) :
    ∀ c ∈ rTextCmds r, c.isText = true := by
  match r with
  | .text s cfg b =>
      intro c hc
      rw [rTextCmds, List.mem_singleton] at hc
      subst hc
      rfl
  | .container cfg b cs =>
      intro c hc
      rw [rTextCmds] at hc
      exact rTextCmdsList_isText cs c hc

theorem rTextCmdsList_isText (rs : List RElement) :
    ∀ c ∈ rTextCmdsList rs, c.isText = true := by
  match rs with
  | [] => intro c hc; rw [rTextCmdsList] at hc; exact absurd hc (List.not_mem_nil c)
  | r :: rest =>
      intro c hc
      rw [rTextCmdsList] at hc
      rcases List.mem_append.mp hc with h | h
      · exact rTextCmds_isText r c h
      · exact rTextCmdsList_isText rest c h

end

theorem isTextCmdWith_iff (c : DrawCommand) (t : String) :
    isTextCmdWith c t = true ↔ (c.isText = true ∧ c.contentOf = t) := by
  cases c <;> simp [isTextCmdWith, DrawCommand.isText, DrawCommand.contentOf]

theorem rTextCmds_contents_false (t s : String) (w : ℤ) :
    (rTextCmds (frame t s false w)).map DrawCommand.contentOf = ["Menu", t, s] := by
  simp only [frame, build, leftCluster, centerArea, resolve, resolveElem, resolveChildren,
    rTextCmds, rTextCmdsList, elemExtentW, elemExtentH, sizingExtent, measure_text_fn,
    flowCount, flowMainTotal, alignOffset, floatingOf, isFloatingElem, BAR_HEIGHT,
    baseConfig, List.filter, List.foldl, List.append, List.map, DrawCommand.contentOf]

theorem rTextCmds_contents_true (t s : String) (w : ℤ) :
    (rTextCmds (frame t s true w)).map DrawCommand.contentOf =
      ["Menu", t, s, "Open xterm", "Show files (xdg-open .)"] := by
  simp only [frame, build, leftCluster, centerArea, dropdownMenu, resolve, resolveElem,
    resolveChildren, rTextCmds, rTextCmdsList, elemExtentW, elemExtentH, sizingExtent,
    measure_text_fn, flowCount, flowMainTotal, alignOffset, floatingOf, isFloatingElem,
    BAR_HEIGHT, baseConfig, List.filter, List.foldl, List.append, List.map,
    DrawCommand.contentOf]

theorem empty_status_cmd_mem (t : String) (w : ℤ) :
    DrawCommand.text ⟨250 + (max 0 ((w : ℚ) - 250) - 0) / 2, 7, 0, 12⟩ "" 12
        ⟨200, 200, 200, 255⟩ ∈ rTextCmds (frame t "" false w) := by
  simp only [frame, build, leftCluster, centerArea, resolve, resolveElem, resolveChildren,
    rTextCmds, rTextCmdsList, elemExtentW, elemExtentH, sizingExtent, measure_text_fn,
    flowCount, flowMainTotal, alignOffset, floatingOf, isFloatingElem, BAR_HEIGHT,
    baseConfig, List.filter, List.foldl, List.append, String.length_empty]
  norm_num

theorem hasTextCmd_emit (r : RElement) (t : String) :
    hasTextCmd (emit r) t = true ↔ ∃ c ∈ rTextCmds r, isTextCmdWith c t = true := by
  rw [hasTextCmd, List.any_eq_true]
  constructor
  · rintro ⟨c, hc, hct⟩
    have htext := ((isTextCmdWith_iff c t).mp hct).1
    exact ⟨c, (mem_emit_iff_text r c htext).mp hc, hct⟩
  · rintro ⟨c, hc, hct⟩
    have htext := ((isTextCmdWith_iff c t).mp hct).1
    exact ⟨c, (mem_emit_iff_text r c htext).mpr hc, hct⟩

theorem hasTextCmd_frame_of_content (timebuf statusbuf : String) (dd : Bool) (w : ℤ)
    (t : String)
    (hmem : t ∈ (rTextCmds (frame timebuf statusbuf dd w)).map DrawCommand.contentOf) :
    hasTextCmd (frameCommands timebuf statusbuf dd w) t = true := by
  rw [frameCommands, hasTextCmd_emit]
  obtain ⟨c, hc, hceq⟩ := List.mem_map.mp hmem
  exact ⟨c, hc, (isTextCmdWith_iff c t).mpr ⟨rTextCmds_isText _ c hc, hceq⟩⟩

/-- **C3**: the built tree contains the dropdown subtree ids exactly when
`dropdown_open`; the emitted commands of an open frame contain Text
commands "Open xterm" and "Show files (xdg-open .)", and those commands
are absent from any closed frame (provided the clock/status strings do not
collide with the item labels). -/
theorem claim_C3_dropdown_frame (timebuf statusbuf : String) (w : ℤ)
    (h1 : timebuf ≠ "Open xterm") (h2 : timebuf ≠ "Show files (xdg-open .)")
    (h3 : statusbuf ≠ "Open xterm") (h4 : statusbuf ≠ "Show files (xdg-open .)") :
    (∀ dd : Bool,
      (containsId (build timebuf statusbuf dd w) "dropdown" = dd) ∧
      (containsId (build timebuf statusbuf dd w) "item1" = dd) ∧
      (containsId (build timebuf statusbuf dd w) "item2" = dd)) ∧
    hasTextCmd (frameCommands timebuf statusbuf true w) "Open xterm" = true ∧
    hasTextCmd (frameCommands timebuf statusbuf true w) "Show files (xdg-open .)" = true ∧
    hasTextCmd (frameCommands timebuf statusbuf false w) "Open xterm" = false ∧
    hasTextCmd (frameCommands timebuf statusbuf false w) "Show files (xdg-open .)" = false := by
  refine ⟨?_, ?_, ?_, ?_, ?_⟩
  · intro dd
    cases dd <;>
      refine ⟨?_, ?_, ?_⟩ <;>
        simp only [build, leftCluster, centerArea, dropdownMenu, containsId, containsIdList,
          baseConfig, List.append, String.reduceEq, decide_False, decide_True,
          Bool.false_or, Bool.or_false, Bool.or_true, Bool.true_or]
  · exact hasTextCmd_frame_of_content _ _ _ _ _
      (by rw [rTextCmds_contents_true]; simp)
  · exact hasTextCmd_frame_of_content _ _ _ _ _
      (by rw [rTextCmds_contents_true]; simp)
  · rw [Bool.eq_false_iff]
    intro hT
    rw [frameCommands, hasTextCmd_emit] at hT
    obtain ⟨c, hc, hct⟩ := hT
    obtain ⟨htext, hcont⟩ := (isTextCmdWith_iff c _).mp hct
    have hmm : DrawCommand.contentOf c ∈
        (rTextCmds (frame timebuf statusbuf false w)).map DrawCommand.contentOf :=
      List.mem_map_of_mem _ hc
    rw [rTextCmds_contents_false, hcont] at hmm
    simp only [List.mem_cons, List.not_mem_nil, or_false] at hmm
    rcases hmm with h | h | h
    · simp at h
    · exact h1 h.symm
    · exact h3 h.symm
  · rw [Bool.eq_false_iff]
    intro hT
    rw [frameCommands, hasTextCmd_emit] at hT
    obtain ⟨c, hc, hct⟩ := hT
    obtain ⟨htext, hcont⟩ := (isTextCmdWith_iff c _).mp hct
    have hmm : DrawCommand.contentOf c ∈
        (rTextCmds (frame timebuf statusbuf false w)).map DrawCommand.contentOf :=
      List.mem_map_of_mem _ hc
    rw [rTextCmds_contents_false, hcont] at hmm
    simp only [List.mem_cons, List.not_mem_nil, or_false] at hmm
    rcases hmm with h | h | h
    · simp at h
    · exact h2 h.symm
    · exact h4 h.symm

theorem claim_C3_dropdown_frame_witness :
    hasTextCmd (frameCommands "12:00" "hello" true 1920) "Open xterm" = true ∧
    hasTextCmd (frameCommands "12:00" "hello" false 1920) "Open xterm" = false :=
  ⟨(claim_C3_dropdown_frame "12:00" "hello" 1920 (by decide) (by decide) (by decide)
      (by decide)).2.1,
   (claim_C3_dropdown_frame "12:00" "hello" 1920 (by decide) (by decide) (by decide)
      (by decide)).2.2.2.1⟩

theorem findBox_center_false (timebuf statusbuf : String) (w : ℤ) :
    findBox (frame timebuf statusbuf false w) "center" =
      some ⟨250, 0, max 0 ((w : ℚ) - 250), 26⟩ := by
  simp only [frame, build, leftCluster, centerArea, resolve, resolveElem, resolveChildren,
    findBox, findBoxList, elemExtentW, elemExtentH, sizingExtent, measure_text_fn,
    flowCount, flowMainTotal, alignOffset, floatingOf, isFloatingElem, BAR_HEIGHT,
    baseConfig, List.filter, List.foldl, List.append, String.reduceEq, reduceIte]
  norm_num

/-- **C9**: with empty status text the built tree still contains a text
leaf of zero-length content, and the frame still emits a Text command with
empty content whose box has zero measured width and is centered (equal
margins) in the center container's resolved box. -/
theorem claim_C9_empty_status (timebuf : String) (w : ℤ) :
    containsTextLeaf (build timebuf "" false w) "" = true ∧
    ∃ tb cb : Box,
      findBox (frame timebuf "" false w) "center" = some cb ∧
      DrawCommand.text tb "" 12 ⟨200, 200, 200, 255⟩ ∈ frameCommands timebuf "" false w ∧
      tb.width = 0 ∧
      (measure_text_fn "" ⟨12, 0, ⟨200, 200, 200, 255⟩⟩).1 = 0 ∧
      tb.x - cb.x = (cb.x + cb.width) - (tb.x + tb.width) ∧
      tb.y - cb.y = (cb.y + cb.height) - (tb.y + tb.height) := by
  constructor
  · simp only [build, leftCluster, centerArea, containsTextLeaf, containsTextLeafList,
      baseConfig, List.append, String.reduceEq, decide_True, decide_False,
      Bool.or_true, Bool.true_or, Bool.false_or, Bool.or_false]
  · refine ⟨⟨250 + (max 0 ((w : ℚ) - 250) - 0) / 2, 7, 0, 12⟩,
      ⟨250, 0, max 0 ((w : ℚ) - 250), 26⟩,
      findBox_center_false timebuf "" w, ?_, rfl, ?_, ?_, ?_⟩
    · rw [frameCommands]
      refine (mem_emit_iff_text _
          (DrawCommand.text ⟨250 + (max 0 ((w : ℚ) - 250) - 0) / 2, 7, 0, 12⟩ "" 12
            ⟨200, 200, 200, 255⟩) rfl).mpr (empty_status_cmd_mem timebuf w)
    · simp [measure_text_fn]
    · show (250 + (max 0 ((w : ℚ) - 250) - 0) / 2) - 250 =
        (250 + max 0 ((w : ℚ) - 250)) - ((250 + (max 0 ((w : ℚ) - 250) - 0) / 2) + 0)
      ring
    · show (7 : ℚ) - 0 = (0 + 26) - (7 + 12)
      norm_num

theorem tags_append_order {α : Type} (l1 l2 : List (Bool × α)) (d1 d2 : Bool × α)
    (h1 : ∀ x ∈ l1, x.1 = false) (h2 : ∀ x ∈ l2, x.1 = true)
    (i j : ℕ) (hj : j < (l1 ++ l2).length)
    (htrue : ((l1 ++ l2).getD i d1).1 = true)
    (hfalse : ((l1 ++ l2).getD j d2).1 = false) : j < i := by
  have hilen : l1.length ≤ i := by
    by_contra hlt
    push_neg at hlt
    rw [List.getD_append _ _ _ _ hlt, List.getD_eq_getElem _ _ hlt] at htrue
    have := h1 _ (List.getElem_mem hlt)
    rw [htrue] at this
    exact absurd this (by simp)
  have hjlen : j < l1.length := by
    by_contra hge
    push_neg at hge
    have hsub : j - l1.length < l2.length := by
      rw [List.length_append] at hj
      omega
    rw [List.getD_append_right _ _ _ _ hge, List.getD_eq_getElem _ _ hsub] at hfalse
    have := h2 _ (List.getElem_mem hsub)
    rw [hfalse] at this
    exact absurd this (by simp)
  omega

theorem emitTagged_floating_after_flow (r : RElement) (i j : ℕ)
    (hj : j < (emitTagged r).length)
    (htrue : ((emitTagged r).getD i (false, dummyCmd)).1 = true)
    (hfalse : ((emitTagged r).getD j (true, dummyCmd)).1 = false) :
    j < i := by
  refine tags_append_order ((emitElem r).1.map (fun c => (false, c)))
    ((sortByZ (emitElem r).2).flatMap (fun p => p.2.map (fun c => (true, c))))
    (false, dummyCmd) (true, dummyCmd) ?_ ?_ i j hj htrue hfalse
  · intro x hx
    obtain ⟨c, _, rfl⟩ := List.mem_map.mp hx
    rfl
  · intro x hx
    obtain ⟨p, _, hx2⟩ := List.mem_flatMap.mp hx
    obtain ⟨c, _, rfl⟩ := List.mem_map.mp hx2
    rfl

/-- **C4**: in every open-dropdown frame, every draw command emitted in
the floating pass (i.e. belonging to the floating dropdown subtree) appears
in the command sequence strictly after every command of the non-floating
tree. -/
theorem claim_C4_paint_order (timebuf statusbuf : String) (w : ℤ) (i j : ℕ)
    (hj : j < (frameTagged timebuf statusbuf true w).length)
    (hfloat : ((frameTagged timebuf statusbuf true w).getD i (false, dummyCmd)).1 = true)
    (hflow : ((frameTagged timebuf statusbuf true w).getD j (true, dummyCmd)).1 = false) :
    j < i :=
  emitTagged_floating_after_flow _ i j hj hfloat hflow

set_option maxHeartbeats 1000000 in
theorem claim_C4_paint_order_witness :
    ((frameTagged "" "" true 1920).getD 7 (false, dummyCmd)).1 = true ∧
    ((frameTagged "" "" true 1920).getD 0 (true, dummyCmd)).1 = false ∧
    (0 : ℕ) < 7 := by
  have h0 : 0 < (frameTagged "" "" true 1920).length := by
    simp only [frameTagged, frame, build, leftCluster, centerArea, dropdownMenu, resolve,
      resolveElem, resolveChildren, emitTagged, emitElem, emitList, ownCommands,
      sortByZ, insertByZ, elemExtentW, elemExtentH, sizingExtent, measure_text_fn,
      flowCount, flowMainTotal, alignOffset, floatingOf, isFloatingElem, BAR_HEIGHT,
      baseConfig, List.filter, List.foldl, List.append, List.map, List.flatMap,
      List.cons_append, List.nil_append, List.append_nil,
      List.flatten_cons, List.flatten_nil,
      List.length_cons, List.length_nil]
    omega
  have h1 : ((frameTagged "" "" true 1920).getD 7 (false, dummyCmd)).1 = true := by
    simp only [frameTagged, frame, build, leftCluster, centerArea, dropdownMenu, resolve,
      resolveElem, resolveChildren, emitTagged, emitElem, emitList, ownCommands,
      sortByZ, insertByZ, elemExtentW, elemExtentH, sizingExtent, measure_text_fn,
      flowCount, flowMainTotal, alignOffset, floatingOf, isFloatingElem, BAR_HEIGHT,
      baseConfig, List.filter, List.foldl, List.append, List.map, List.flatMap,
      List.cons_append, List.nil_append, List.append_nil,
      List.flatten_cons, List.flatten_nil,
      List.getD_cons_zero, List.getD_cons_succ]
  have h2 : ((frameTagged "" "" true 1920).getD 0 (true, dummyCmd)).1 = false := by
    simp only [frameTagged, frame, build, leftCluster, centerArea, dropdownMenu, resolve,
      resolveElem, resolveChildren, emitTagged, emitElem, emitList, ownCommands,
      sortByZ, insertByZ, elemExtentW, elemExtentH, sizingExtent, measure_text_fn,
      flowCount, flowMainTotal, alignOffset, floatingOf, isFloatingElem, BAR_HEIGHT,
      baseConfig, List.filter, List.foldl, List.append, List.map, List.flatMap,
      List.cons_append, List.nil_append, List.append_nil,
      List.flatten_cons, List.flatten_nil,
      List.getD_cons_zero, List.getD_cons_succ]
  exact ⟨h1, h2, claim_C4_paint_order "" "" 1920 7 0 h0 h1 h2⟩

end ClayBar
